import Mathlib

/-!
Shallow embedding of `src/kits/network/libnetapi/NetworkInterface.cpp`
(Haiku's `BNetworkInterface` / `BNetworkInterfaceAddress` facade over the
socket-`ioctl` interface), together with theorems settling the frozen
claims about it.

Modelling decisions:

* The operating system is an oracle (`Kernel`): the result of creating the
  throwaway `AF_INET` datagram socket (`socketErr`, `none` meaning success,
  `some e` meaning failure with `errno = e`), and two response functions,
  one per request layout (`ifreq` / `ifaliasreq`), mapping an ioctl option
  and the request the caller built to either an error number or the
  request as written back by the kernel.  `Kernel.Wf` records the one fact
  POSIX guarantees and the code relies on: a failed call reports a nonzero
  error number (`B_OK = 0` is the success sentinel `status_t`).
* `ifreq` is a union in C; each ioctl touches a single member, so it is
  modelled as a record with one field per member used by this file.
  An uninitialised stack `ifreq` is passed in explicitly (parameter `g`,
  the garbage the stack happened to hold), so theorems quantify over it.
* Socket-address blocks are byte lists; `memcpy` of a block is modelled as
  replacing the corresponding field by those bytes.
* Every operation also returns the list of ioctl calls it issued
  (`IoctlCall`), so that "issues the same request" / "without issuing the
  request" claims are stated directly.
* Names are strings; `strlcpy dst src size` stores `src` truncated to
  `size - 1` characters plus the terminator, modelled by `strlcpy`.
-/

namespace Netapi

abbrev status_t := Int

def B_OK : status_t := 0

/-- Haiku's maximum interface name length, terminator included. -/
def IF_NAMESIZE : Nat := 32

/-- `strlcpy(dst, src, size)`: the string stored in `dst`, namely `src`
truncated to `size - 1` characters (the last byte holds the terminator). -/
def strlcpy (src : String) (size : Nat) : String :=
  (src.toList.take (size - 1)).asString

/- Ioctl option codes used by the file.  Their numeric values are
platform-defined and irrelevant to the claims; they only need to be
distinct. -/

def SIOCGIFNAME : Nat := 1
def SIOCGIFINDEX : Nat := 2
def SIOCGIFFLAGS : Nat := 3
def SIOCSIFFLAGS : Nat := 4
def SIOCGIFMTU : Nat := 5
def SIOCSIFMTU : Nat := 6
def SIOCGIFTYPE : Nat := 7
def SIOCGIFSTATS : Nat := 8
def SIOCGIFADDR : Nat := 9
def B_SOCKET_GET_ALIAS : Nat := 10
def B_SOCKET_ADD_ALIAS : Nat := 11
def B_SOCKET_SET_ALIAS : Nat := 12
def B_SOCKET_REMOVE_ALIAS : Nat := 13
def B_SOCKET_COUNT_ALIASES : Nat := 14

/-- A socket-address value (`BNetworkAddress` in the source): the bytes of
its `sockaddr`, of which `Length()` are meaningful; `memcpy` of
`Length()` bytes is modelled as copying this list. -/
structure BNetworkAddress where
  bytes : List Nat
deriving DecidableEq

/-- `BNetworkAddress::SetTo(sockaddr)`: overwrite from a kernel-returned
socket-address block. -/
def BNetworkAddress.SetTo (_ : BNetworkAddress) (b : List Nat) : BNetworkAddress :=
  ⟨b⟩

/-- The `ifreq` request record (a union in C; one field per member this
file uses). -/
structure IfReq where
  ifr_name : String
  ifr_index : Nat
  ifr_flags : Nat
  ifr_mtu : Nat
  ifr_type : Nat
  ifr_count : Int
  ifr_addr : List Nat
  ifr_stats : List Nat
deriving DecidableEq

/-- The `ifaliasreq` request record. -/
structure IfAliasReq where
  ifra_name : String
  ifra_index : Int
  ifra_flags : Nat
  ifra_addr : List Nat
  ifra_mask : List Nat
  ifra_broadaddr : List Nat
deriving DecidableEq

/-- One ioctl call as issued to the kernel: the option code and the
request structure handed over. -/
inductive IoctlCall where
  | req (option : Nat) (request : IfReq)
  | aliasReq (option : Nat) (request : IfAliasReq)
deriving DecidableEq

/-- The option code of an issued ioctl call. -/
def IoctlCall.option : IoctlCall → Nat
  | .req o _ => o
  | .aliasReq o _ => o

/-- The operating-system oracle: result of creating the throwaway
`AF_INET` datagram socket, and the kernel's response to each ioctl
(either an `errno` value or the request as written back). -/
structure Kernel where
  socketErr : Option Int
  ioctlReq : Nat → IfReq → Except Int IfReq
  ioctlAlias : Nat → IfAliasReq → Except Int IfAliasReq

/-- Well-formed kernel: a failed socket creation or ioctl reports a
nonzero error number (POSIX `errno` semantics; `B_OK = 0` is success). -/
def Kernel.Wf (k : Kernel) : Prop :=
  (∀ e, k.socketErr = some e → e ≠ 0) ∧
  (∀ o r e, k.ioctlReq o r = .error e → e ≠ 0) ∧
  (∀ o r e, k.ioctlAlias o r = .error e → e ≠ 0)

/-- `BNetworkInterfaceAddress`: one address alias record. -/
structure BNetworkInterfaceAddress where
  fIndex : Int
  fFlags : Nat
  fAddress : BNetworkAddress
  fMask : BNetworkAddress
  fBroadcast : BNetworkAddress
deriving DecidableEq

/-- The default constructor `BNetworkInterfaceAddress()`: `fIndex = 0`,
`fFlags = 0`, default-constructed (empty) addresses. -/
def BNetworkInterfaceAddress.mkDefault : BNetworkInterfaceAddress :=
  ⟨0, 0, ⟨[]⟩, ⟨[]⟩, ⟨[]⟩⟩

def BNetworkInterfaceAddress.Index (a : BNetworkInterfaceAddress) : Int :=
  a.fIndex

def BNetworkInterfaceAddress.Flags (a : BNetworkInterfaceAddress) : Nat :=
  a.fFlags

def BNetworkInterfaceAddress.Address (a : BNetworkInterfaceAddress) : BNetworkAddress :=
  a.fAddress

def BNetworkInterfaceAddress.Mask (a : BNetworkInterfaceAddress) : BNetworkAddress :=
  a.fMask

def BNetworkInterfaceAddress.Broadcast (a : BNetworkInterfaceAddress) : BNetworkAddress :=
  a.fBroadcast

/-- `SetAddress`: direct field assignment, no validation. -/
def BNetworkInterfaceAddress.SetAddress (a : BNetworkInterfaceAddress)
    (address : BNetworkAddress) : BNetworkInterfaceAddress :=
  { a with fAddress := address }

/-- `SetMask`: direct field assignment, no validation. -/
def BNetworkInterfaceAddress.SetMask (a : BNetworkInterfaceAddress)
    (mask : BNetworkAddress) : BNetworkInterfaceAddress :=
  { a with fMask := mask }

/-- `SetBroadcast`: direct field assignment, no validation. -/
def BNetworkInterfaceAddress.SetBroadcast (a : BNetworkInterfaceAddress)
    (broadcast : BNetworkAddress) : BNetworkInterfaceAddress :=
  { a with fBroadcast := broadcast }

/-- `SetFlags`: direct field assignment, no validation. -/
def BNetworkInterfaceAddress.SetFlags (a : BNetworkInterfaceAddress)
    (flags : Nat) : BNetworkInterfaceAddress :=
  { a with fFlags := flags }

/-- The `ifaliasreq` built by `do_ifaliasreq` from the interface name and
the address record: `strlcpy` of the name, then `ifra_index`,
`ifra_flags`, and `memcpy` of the three socket-address blocks. -/
def buildAliasReq (name : String) (address : BNetworkInterfaceAddress) : IfAliasReq :=
  { ifra_name := strlcpy name IF_NAMESIZE
    ifra_index := address.Index
    ifra_flags := address.Flags
    ifra_addr := address.Address.bytes
    ifra_mask := address.Mask.bytes
    ifra_broadaddr := address.Broadcast.bytes }

/-- `do_ifaliasreq(name, option, address, readBack)`: create the socket
(fail with `errno`), build the `ifaliasreq`, issue the ioctl (fail with
`errno`), and when `readBack` is set overwrite the record's flags,
address, mask and broadcast from the kernel's reply.  Returns the status,
the (possibly updated) record, and the ioctl calls issued. -/
def do_ifaliasreq (k : Kernel) (name : String) (option : Nat)
    (address : BNetworkInterfaceAddress) (readBack : Bool) :
    status_t × BNetworkInterfaceAddress × List IoctlCall :=
  match k.socketErr with
  | some e => (e, address, [])
  | none =>
    let request := buildAliasReq name address
    match k.ioctlAlias option request with
    | .error e => (e, address, [.aliasReq option request])
    | .ok r =>
      if readBack then
        (B_OK,
          { address with
              fFlags := r.ifra_flags
              fAddress := address.fAddress.SetTo r.ifra_addr
              fMask := address.fMask.SetTo r.ifra_mask
              fBroadcast := address.fBroadcast.SetTo r.ifra_broadaddr },
          [.aliasReq option request])
      else
        (B_OK, address, [.aliasReq option request])

/-- `do_request(request, name, option)`: create the socket (fail with
`errno`), `strlcpy` the name into the request, issue the ioctl (fail with
`errno`), else return `B_OK` and the request as written back.  Also
returns the ioctl calls issued. -/
def do_request (k : Kernel) (request : IfReq) (name : String) (option : Nat) :
    status_t × IfReq × List IoctlCall :=
  match k.socketErr with
  | some e => (e, request, [])
  | none =>
    let request := { request with ifr_name := strlcpy name IF_NAMESIZE }
    match k.ioctlReq option request with
    | .error e => (e, request, [.req option request])
    | .ok r => (B_OK, r, [.req option request])

/-- The interface handle: it owns nothing but a bounded name string. -/
structure BNetworkInterface where
  fName : String
deriving DecidableEq

def BNetworkInterface.Name (i : BNetworkInterface) : String :=
  i.fName

/-- `Unset()`: empty the name. -/
def BNetworkInterface.Unset (_ : BNetworkInterface) : BNetworkInterface :=
  ⟨""⟩

/-- `SetTo(const char* name)`: copy the name, truncated by `strlcpy` to
`IF_NAMESIZE` (terminator included); never fails. -/
def BNetworkInterface.SetToName (_ : BNetworkInterface) (name : String) :
    BNetworkInterface :=
  ⟨strlcpy name IF_NAMESIZE⟩

/-- The constructor `BNetworkInterface(const char* name)`: delegates to
`SetTo(name)` (the previous contents of `fName` are garbage `prev`). -/
def BNetworkInterface.ofName (prev : BNetworkInterface) (name : String) :
    BNetworkInterface :=
  prev.SetToName name

/-- `SetTo(uint32 index)`: build an `ifreq` with `ifr_index = index` over
garbage `g`, issue `SIOCGIFNAME` with an empty name; on failure return the
kernel's status with the handle untouched, on success copy the
kernel-returned name (again through `strlcpy`). -/
def BNetworkInterface.SetToIndex (k : Kernel) (g : IfReq)
    (i : BNetworkInterface) (index : Nat) :
    status_t × BNetworkInterface × List IoctlCall :=
  let request := { g with ifr_index := index }
  let res := do_request k request "" SIOCGIFNAME
  if res.1 ≠ B_OK then (res.1, i, res.2.2)
  else (B_OK, ⟨strlcpy res.2.1.ifr_name IF_NAMESIZE⟩, res.2.2)

/-- `Exists()`: true iff the `SIOCGIFINDEX` lookup of this name reports
`B_OK`. -/
def BNetworkInterface.Exists (k : Kernel) (g : IfReq)
    (i : BNetworkInterface) : Bool :=
  (do_request k g i.Name SIOCGIFINDEX).1 = B_OK

/-- `Flags()`: `SIOCGIFFLAGS`; `0` unless the request reports `B_OK`. -/
def BNetworkInterface.Flags (k : Kernel) (g : IfReq)
    (i : BNetworkInterface) : Nat :=
  let res := do_request k g i.Name SIOCGIFFLAGS
  if res.1 ≠ B_OK then 0 else res.2.1.ifr_flags

/-- `MTU()`: `SIOCGIFMTU`; `0` unless the request reports `B_OK`. -/
def BNetworkInterface.MTU (k : Kernel) (g : IfReq)
    (i : BNetworkInterface) : Nat :=
  let res := do_request k g i.Name SIOCGIFMTU
  if res.1 ≠ B_OK then 0 else res.2.1.ifr_mtu

/-- `Type()`: `SIOCGIFTYPE`; `0` unless the request reports `B_OK`. -/
def BNetworkInterface.Type' (k : Kernel) (g : IfReq)
    (i : BNetworkInterface) : Nat :=
  let res := do_request k g i.Name SIOCGIFTYPE
  if res.1 ≠ B_OK then 0 else res.2.1.ifr_type

/-- `GetStats(stats)`: `SIOCGIFSTATS`; on success copy the returned stats
block out, on failure propagate the status with `stats` untouched. -/
def BNetworkInterface.GetStats (k : Kernel) (g : IfReq)
    (i : BNetworkInterface) (stats : List Nat) :
    status_t × List Nat × List IoctlCall :=
  let res := do_request k g i.Name SIOCGIFSTATS
  if res.1 ≠ B_OK then (res.1, stats, res.2.2)
  else (B_OK, res.2.1.ifr_stats, res.2.2)

/-- `SetFlags(flags)`: store into `ifr_flags`, issue `SIOCSIFFLAGS`,
return the status verbatim. -/
def BNetworkInterface.SetFlags (k : Kernel) (g : IfReq)
    (i : BNetworkInterface) (flags : Nat) : status_t × List IoctlCall :=
  let res := do_request k { g with ifr_flags := flags } i.Name SIOCSIFFLAGS
  (res.1, res.2.2)

/-- `SetMTU(mtu)`: store into `ifr_mtu`, issue `SIOCSIFMTU`, return the
status verbatim. -/
def BNetworkInterface.SetMTU (k : Kernel) (g : IfReq)
    (i : BNetworkInterface) (mtu : Nat) : status_t × List IoctlCall :=
  let res := do_request k { g with ifr_mtu := mtu } i.Name SIOCSIFMTU
  (res.1, res.2.2)

/-- `CountAddresses()`: `B_SOCKET_COUNT_ALIASES`; `0` unless the request
reports `B_OK`, else the kernel-returned `ifr_count`. -/
def BNetworkInterface.CountAddresses (k : Kernel) (g : IfReq)
    (i : BNetworkInterface) : Int :=
  let res := do_request k g i.Name B_SOCKET_COUNT_ALIASES
  if res.1 ≠ B_OK then 0 else res.2.1.ifr_count

/-- `BNetworkInterfaceAddress::SetTo(interface, index)`: assign `fIndex`,
then `do_ifaliasreq` with `B_SOCKET_GET_ALIAS` and read-back. -/
def BNetworkInterfaceAddress.SetTo (k : Kernel)
    (a : BNetworkInterfaceAddress) (interface : BNetworkInterface)
    (index : Int) :
    status_t × BNetworkInterfaceAddress × List IoctlCall :=
  let a := { a with fIndex := index }
  do_ifaliasreq k interface.Name B_SOCKET_GET_ALIAS a true

/-- `GetAddressAt(index, address)`: delegates to
`address.SetTo(*this, index)`. -/
def BNetworkInterface.GetAddressAt (k : Kernel) (i : BNetworkInterface)
    (index : Int) (address : BNetworkInterfaceAddress) :
    status_t × BNetworkInterfaceAddress × List IoctlCall :=
  address.SetTo k i index

/-- `AddAddress(address)`: `do_ifaliasreq` with `B_SOCKET_ADD_ALIAS`, no
read-back (the argument is const). -/
def BNetworkInterface.AddAddress (k : Kernel) (i : BNetworkInterface)
    (address : BNetworkInterfaceAddress) : status_t × List IoctlCall :=
  let res := do_ifaliasreq k i.Name B_SOCKET_ADD_ALIAS address false
  (res.1, res.2.2)

/-- `SetAddress(address)`: `do_ifaliasreq` with `B_SOCKET_SET_ALIAS`, no
read-back. -/
def BNetworkInterface.SetAddress (k : Kernel) (i : BNetworkInterface)
    (address : BNetworkInterfaceAddress) : status_t × List IoctlCall :=
  let res := do_ifaliasreq k i.Name B_SOCKET_SET_ALIAS address false
  (res.1, res.2.2)

/-- `RemoveAddress(address)`: `memcpy` the record's address bytes into
`ifr_addr` over garbage `g` and issue `B_SOCKET_REMOVE_ALIAS`. -/
def BNetworkInterface.RemoveAddress (k : Kernel) (g : IfReq)
    (i : BNetworkInterface) (address : BNetworkInterfaceAddress) :
    status_t × List IoctlCall :=
  let request := { g with ifr_addr := address.Address.bytes }
  let res := do_request k request i.Name B_SOCKET_REMOVE_ALIAS
  (res.1, res.2.2)

/-- `RemoveAddressAt(index)`: `GetAddressAt` on a fresh record, early
return on non-`B_OK`, else `RemoveAddress` of the record read back
(`g` is the garbage in `RemoveAddress`'s local `ifreq`). -/
def BNetworkInterface.RemoveAddressAt (k : Kernel) (g : IfReq)
    (i : BNetworkInterface) (index : Int) : status_t × List IoctlCall :=
  let address := BNetworkInterfaceAddress.mkDefault
  let res := i.GetAddressAt k index address
  if res.1 ≠ B_OK then (res.1, res.2.2)
  else
    let rem := i.RemoveAddress k g res.2.1
    (rem.1, res.2.2 ++ rem.2)

/-! ### Helper lemmas about the two request primitives -/

theorem do_request_some (k : Kernel) (r : IfReq) (n : String) (o : Nat) (e : Int)
    (h : k.socketErr = some e) : do_request k r n o = (e, r, []) := by
  simp [do_request, h]

theorem do_request_none_error (k : Kernel) (r : IfReq) (n : String) (o : Nat)
    (e : Int) (hs : k.socketErr = none)
    (h : k.ioctlReq o { r with ifr_name := strlcpy n IF_NAMESIZE } = .error e) :
    do_request k r n o =
      (e, { r with ifr_name := strlcpy n IF_NAMESIZE },
        [.req o { r with ifr_name := strlcpy n IF_NAMESIZE }]) := by
  simp [do_request, hs, h]

theorem do_request_none_ok (k : Kernel) (r : IfReq) (n : String) (o : Nat)
    (r' : IfReq) (hs : k.socketErr = none)
    (h : k.ioctlReq o { r with ifr_name := strlcpy n IF_NAMESIZE } = .ok r') :
    do_request k r n o =
      (B_OK, r', [.req o { r with ifr_name := strlcpy n IF_NAMESIZE }]) := by
  simp [do_request, hs, h]

theorem do_ifaliasreq_some (k : Kernel) (n : String) (o : Nat)
    (a : BNetworkInterfaceAddress) (b : Bool) (e : Int)
    (h : k.socketErr = some e) : do_ifaliasreq k n o a b = (e, a, []) := by
  simp [do_ifaliasreq, h]

theorem do_ifaliasreq_none_error (k : Kernel) (n : String) (o : Nat)
    (a : BNetworkInterfaceAddress) (b : Bool) (e : Int)
    (hs : k.socketErr = none)
    (h : k.ioctlAlias o (buildAliasReq n a) = .error e) :
    do_ifaliasreq k n o a b = (e, a, [.aliasReq o (buildAliasReq n a)]) := by
  simp [do_ifaliasreq, hs, h]

theorem do_ifaliasreq_none_ok_read (k : Kernel) (n : String) (o : Nat)
    (a : BNetworkInterfaceAddress) (r : IfAliasReq)
    (hs : k.socketErr = none)
    (h : k.ioctlAlias o (buildAliasReq n a) = .ok r) :
    do_ifaliasreq k n o a true =
      (B_OK,
        { a with
            fFlags := r.ifra_flags
            fAddress := ⟨r.ifra_addr⟩
            fMask := ⟨r.ifra_mask⟩
            fBroadcast := ⟨r.ifra_broadaddr⟩ },
        [.aliasReq o (buildAliasReq n a)]) := by
  simp [do_ifaliasreq, hs, h, BNetworkAddress.SetTo]

/-! ### Concrete kernels and inputs used by the witnesses -/

/-- A kernel on which every call succeeds, answering each query with a
fixed value. -/
def kOk : Kernel :=
  { socketErr := none
    ioctlReq := fun o r =>
      if o = SIOCGIFFLAGS then .ok { r with ifr_flags := 5 }
      else if o = SIOCGIFMTU then .ok { r with ifr_mtu := 1500 }
      else if o = SIOCGIFTYPE then .ok { r with ifr_type := 6 }
      else if o = SIOCGIFNAME then .ok { r with ifr_name := "eth1" }
      else if o = B_SOCKET_COUNT_ALIASES then .ok { r with ifr_count := 2 }
      else .ok r
    ioctlAlias := fun _ r =>
      .ok { r with ifra_flags := 7, ifra_addr := [10, 0, 0, 1],
                   ifra_mask := [255, 0, 0, 0], ifra_broadaddr := [10, 255, 255, 255] } }

/-- A kernel on which socket creation itself fails with `errno = -2`. -/
def kNoSocket : Kernel :=
  { socketErr := some (-2)
    ioctlReq := fun _ r => .ok r
    ioctlAlias := fun _ r => .ok r }

/-- A kernel on which every ioctl fails with `errno = -3` / `-4`. -/
def kFail : Kernel :=
  { socketErr := none
    ioctlReq := fun _ _ => .error (-3)
    ioctlAlias := fun _ _ => .error (-4) }

theorem kOk_wf : kOk.Wf := by
  refine ⟨?_, ?_, ?_⟩
  · intro e h; simp [kOk] at h
  · intro o r e h
    simp only [kOk] at h
    split at h <;> try simp at h
    split at h <;> try simp at h
    split at h <;> try simp at h
    split at h <;> try simp at h
    split at h <;> simp at h
  · intro o r e h; simp [kOk] at h

theorem kNoSocket_wf : kNoSocket.Wf := by
  refine ⟨?_, ?_, ?_⟩
  · intro e h; simp [kNoSocket] at h; omega
  · intro o r e h; simp [kNoSocket] at h
  · intro o r e h; simp [kNoSocket] at h

theorem kFail_wf : kFail.Wf := by
  refine ⟨?_, ?_, ?_⟩
  · intro e h; simp [kFail] at h
  · intro o r e h; simp [kFail] at h; omega
  · intro o r e h; simp [kFail] at h; omega

/-- A concrete interface handle. -/
def iTest : BNetworkInterface := ⟨"eth0"⟩

/-- A concrete (zeroed) stack `ifreq`. -/
def gTest : IfReq := ⟨"", 0, 0, 0, 0, 0, [], []⟩

/-- A concrete address record. -/
def aTest : BNetworkInterfaceAddress :=
  ⟨1, 2, ⟨[192, 168, 0, 7]⟩, ⟨[255, 255, 255, 0]⟩, ⟨[192, 168, 0, 255]⟩⟩

/-! ### Claims -/

/-- C1: for every interface handle, each of the read-accessors `Flags()`,
`MTU()` and `Type()` returns the kernel-supplied value when its ioctl
query succeeds, and returns zero whenever the socket creation or the
ioctl fails, discarding the kernel's error code. -/
theorem claim_C1_read_accessors_collapse_errors (k : Kernel) (hk : k.Wf)
    (g : IfReq) (i : BNetworkInterface) :
    (∀ e, k.socketErr = some e →
      i.Flags k g = 0 ∧ i.MTU k g = 0 ∧ i.Type' k g = 0) ∧
    (k.socketErr = none →
      (∀ r, k.ioctlReq SIOCGIFFLAGS { g with ifr_name := strlcpy i.Name IF_NAMESIZE } = .ok r →
        i.Flags k g = r.ifr_flags) ∧
      (∀ e, k.ioctlReq SIOCGIFFLAGS { g with ifr_name := strlcpy i.Name IF_NAMESIZE } = .error e →
        i.Flags k g = 0) ∧
      (∀ r, k.ioctlReq SIOCGIFMTU { g with ifr_name := strlcpy i.Name IF_NAMESIZE } = .ok r →
        i.MTU k g = r.ifr_mtu) ∧
      (∀ e, k.ioctlReq SIOCGIFMTU { g with ifr_name := strlcpy i.Name IF_NAMESIZE } = .error e →
        i.MTU k g = 0) ∧
      (∀ r, k.ioctlReq SIOCGIFTYPE { g with ifr_name := strlcpy i.Name IF_NAMESIZE } = .ok r →
        i.Type' k g = r.ifr_type) ∧
      (∀ e, k.ioctlReq SIOCGIFTYPE { g with ifr_name := strlcpy i.Name IF_NAMESIZE } = .error e →
        i.Type' k g = 0)) := by
  obtain ⟨hsock, hreq, -⟩ := hk
  constructor
  · intro e he
    have h0 := hsock e he
    refine ⟨?_, ?_, ?_⟩ <;>
      simp [BNetworkInterface.Flags, BNetworkInterface.MTU, BNetworkInterface.Type',
        do_request_some k _ _ _ e he, B_OK, h0]
  · intro hs
    refine ⟨?_, ?_, ?_, ?_, ?_, ?_⟩
    · intro r h
      simp [BNetworkInterface.Flags, do_request_none_ok k g i.Name _ r hs h, B_OK]
    · intro e h
      have h0 := hreq _ _ _ h
      simp [BNetworkInterface.Flags, do_request_none_error k g i.Name _ e hs h, B_OK, h0]
    · intro r h
      simp [BNetworkInterface.MTU, do_request_none_ok k g i.Name _ r hs h, B_OK]
    · intro e h
      have h0 := hreq _ _ _ h
      simp [BNetworkInterface.MTU, do_request_none_error k g i.Name _ e hs h, B_OK, h0]
    · intro r h
      simp [BNetworkInterface.Type', do_request_none_ok k g i.Name _ r hs h, B_OK]
    · intro e h
      have h0 := hreq _ _ _ h
      simp [BNetworkInterface.Type', do_request_none_error k g i.Name _ e hs h, B_OK, h0]

/-- C1 witness: on a kernel whose socket creation fails with `errno = -2`,
`Flags()` returns `0`. -/
theorem claim_C1_read_accessors_collapse_errors_witness :
    iTest.Flags kNoSocket gTest = 0 :=
  ((claim_C1_read_accessors_collapse_errors kNoSocket kNoSocket_wf gTest iTest).1
    (-2) rfl).1

/-- Every ioctl call issued by `do_ifaliasreq` carries the option it was
given. -/
theorem do_ifaliasreq_trace_option (k : Kernel) (n : String) (o : Nat)
    (a : BNetworkInterfaceAddress) (b : Bool) :
    ∀ c ∈ (do_ifaliasreq k n o a b).2.2, c.option = o := by
  intro c hc
  cases h : k.socketErr with
  | some e => simp [do_ifaliasreq_some k n o a b e h] at hc
  | none =>
    cases hio : k.ioctlAlias o (buildAliasReq n a) with
    | error e =>
      simp [do_ifaliasreq_none_error k n o a b e h hio] at hc
      simp [hc, IoctlCall.option]
    | ok r =>
      cases b with
      | true =>
        simp [do_ifaliasreq_none_ok_read k n o a r h hio] at hc
        simp [hc, IoctlCall.option]
      | false =>
        simp [do_ifaliasreq, h, hio] at hc
        simp [hc, IoctlCall.option]

/-- C2: `SetFlags(flags)` and `SetMTU(mtu)` return exactly the OS error
number produced by the failed socket creation or ioctl call, and return
`B_OK` if and only if the write request succeeds; the error number is
never remapped. -/
theorem claim_C2_setters_propagate_errno (k : Kernel) (hk : k.Wf) (g : IfReq)
    (i : BNetworkInterface) (flags mtu : Nat) :
    (∀ e, k.socketErr = some e →
      (i.SetFlags k g flags).1 = e ∧ (i.SetMTU k g mtu).1 = e) ∧
    (∀ e, k.socketErr = none →
      k.ioctlReq SIOCSIFFLAGS { g with ifr_flags := flags, ifr_name := strlcpy i.Name IF_NAMESIZE } = .error e →
      (i.SetFlags k g flags).1 = e) ∧
    (∀ e, k.socketErr = none →
      k.ioctlReq SIOCSIFMTU { g with ifr_mtu := mtu, ifr_name := strlcpy i.Name IF_NAMESIZE } = .error e →
      (i.SetMTU k g mtu).1 = e) ∧
    ((i.SetFlags k g flags).1 = B_OK ↔
      k.socketErr = none ∧
        ∃ r, k.ioctlReq SIOCSIFFLAGS { g with ifr_flags := flags, ifr_name := strlcpy i.Name IF_NAMESIZE } = .ok r) ∧
    ((i.SetMTU k g mtu).1 = B_OK ↔
      k.socketErr = none ∧
        ∃ r, k.ioctlReq SIOCSIFMTU { g with ifr_mtu := mtu, ifr_name := strlcpy i.Name IF_NAMESIZE } = .ok r) := by
  obtain ⟨hsock, hreq, -⟩ := hk
  refine ⟨?_, ?_, ?_, ?_, ?_⟩
  · intro e he
    constructor <;>
      simp [BNetworkInterface.SetFlags, BNetworkInterface.SetMTU,
        do_request_some k _ _ _ e he]
  · intro e hs h
    simp [BNetworkInterface.SetFlags,
      do_request_none_error k { g with ifr_flags := flags } i.Name SIOCSIFFLAGS e hs h]
  · intro e hs h
    simp [BNetworkInterface.SetMTU,
      do_request_none_error k { g with ifr_mtu := mtu } i.Name SIOCSIFMTU e hs h]
  · cases hsck : k.socketErr with
    | some e =>
      have h0 := hsock e hsck
      simp [BNetworkInterface.SetFlags, do_request_some k _ _ _ e hsck, B_OK,
        h0, hsck]
    | none =>
      cases hio : k.ioctlReq SIOCSIFFLAGS
          { g with ifr_flags := flags, ifr_name := strlcpy i.Name IF_NAMESIZE } with
      | error e =>
        have h0 := hreq _ _ _ hio
        simp [BNetworkInterface.SetFlags,
          do_request_none_error k { g with ifr_flags := flags } i.Name SIOCSIFFLAGS e hsck hio,
          B_OK, h0, hio]
      | ok r =>
        simp [BNetworkInterface.SetFlags,
          do_request_none_ok k { g with ifr_flags := flags } i.Name SIOCSIFFLAGS r hsck hio,
          B_OK, hio]
  · cases hsck : k.socketErr with
    | some e =>
      have h0 := hsock e hsck
      simp [BNetworkInterface.SetMTU, do_request_some k _ _ _ e hsck, B_OK,
        h0, hsck]
    | none =>
      cases hio : k.ioctlReq SIOCSIFMTU
          { g with ifr_mtu := mtu, ifr_name := strlcpy i.Name IF_NAMESIZE } with
      | error e =>
        have h0 := hreq _ _ _ hio
        simp [BNetworkInterface.SetMTU,
          do_request_none_error k { g with ifr_mtu := mtu } i.Name SIOCSIFMTU e hsck hio,
          B_OK, h0, hio]
      | ok r =>
        simp [BNetworkInterface.SetMTU,
          do_request_none_ok k { g with ifr_mtu := mtu } i.Name SIOCSIFMTU r hsck hio,
          B_OK, hio]

/-- C2 witness: on a kernel whose `SIOCSIFFLAGS` ioctl fails with
`errno = -3`, `SetFlags` returns `-3`. -/
theorem claim_C2_setters_propagate_errno_witness :
    (iTest.SetFlags kFail gTest 9).1 = -3 :=
  (claim_C2_setters_propagate_errno kFail kFail_wf gTest iTest 9 0).2.1
    (-3) rfl rfl

/-- C3: `RemoveAddressAt(index)` composes `GetAddressAt` on a fresh
record with `RemoveAddress`: a non-success status of the first sub-call
is returned as is and no removal request is issued; otherwise the result
is whatever `RemoveAddress` returns for the record read back. -/
theorem claim_C3_remove_address_at_composes (k : Kernel) (g : IfReq)
    (i : BNetworkInterface) (index : Int) :
    ((i.GetAddressAt k index BNetworkInterfaceAddress.mkDefault).1 ≠ B_OK →
      (i.RemoveAddressAt k g index).1 =
        (i.GetAddressAt k index BNetworkInterfaceAddress.mkDefault).1 ∧
      ∀ c ∈ (i.RemoveAddressAt k g index).2, c.option ≠ B_SOCKET_REMOVE_ALIAS) ∧
    ((i.GetAddressAt k index BNetworkInterfaceAddress.mkDefault).1 = B_OK →
      (i.RemoveAddressAt k g index).1 =
        (i.RemoveAddress k g
          (i.GetAddressAt k index BNetworkInterfaceAddress.mkDefault).2.1).1) := by
  constructor
  · intro h
    constructor
    · simp [BNetworkInterface.RemoveAddressAt, h]
    · intro c hc
      simp [BNetworkInterface.RemoveAddressAt, h] at hc
      rw [BNetworkInterface.GetAddressAt, BNetworkInterfaceAddress.SetTo] at hc
      have hopt := do_ifaliasreq_trace_option k i.Name B_SOCKET_GET_ALIAS
        { BNetworkInterfaceAddress.mkDefault with fIndex := index } true c hc
      simp [hopt, B_SOCKET_GET_ALIAS, B_SOCKET_REMOVE_ALIAS]
  · intro h
    simp [BNetworkInterface.RemoveAddressAt, h]

/-- C3 witness: on a kernel whose alias-query ioctl fails with
`errno = -4`, `RemoveAddressAt(0)` returns that status. -/
theorem claim_C3_remove_address_at_composes_witness :
    (iTest.GetAddressAt kFail 0 BNetworkInterfaceAddress.mkDefault).1 ≠ B_OK ∧
    (iTest.RemoveAddressAt kFail gTest 0).1 =
      (iTest.GetAddressAt kFail 0 BNetworkInterfaceAddress.mkDefault).1 :=
  ⟨by decide,
    ((claim_C3_remove_address_at_composes kFail gTest iTest 0).1 (by decide)).1⟩

/-- C4: `BNetworkInterfaceAddress::SetTo(interface, index)` issues one
alias-query ioctl carrying the interface name (truncated) and the given
index, and on success overwrites the record's flags, address, mask and
broadcast fields with the values the kernel wrote back. -/
theorem claim_C4_address_set_to_query (k : Kernel)
    (a : BNetworkInterfaceAddress) (i : BNetworkInterface) (index : Int)
    (hs : k.socketErr = none) :
    ((a.SetTo k i index).2.2 =
        [.aliasReq B_SOCKET_GET_ALIAS (buildAliasReq i.Name { a with fIndex := index })] ∧
      (buildAliasReq i.Name { a with fIndex := index }).ifra_name =
        strlcpy i.Name IF_NAMESIZE ∧
      (buildAliasReq i.Name { a with fIndex := index }).ifra_index = index) ∧
    (∀ r, k.ioctlAlias B_SOCKET_GET_ALIAS (buildAliasReq i.Name { a with fIndex := index }) = .ok r →
      (a.SetTo k i index).1 = B_OK ∧
      (a.SetTo k i index).2.1 =
        { fIndex := index, fFlags := r.ifra_flags, fAddress := ⟨r.ifra_addr⟩,
          fMask := ⟨r.ifra_mask⟩, fBroadcast := ⟨r.ifra_broadaddr⟩ }) := by
  constructor
  · refine ⟨?_, rfl, rfl⟩
    cases hio : k.ioctlAlias B_SOCKET_GET_ALIAS
        (buildAliasReq i.Name { a with fIndex := index }) with
    | error e =>
      simp [BNetworkInterfaceAddress.SetTo,
        do_ifaliasreq_none_error k i.Name _ _ true e hs hio]
    | ok r =>
      simp [BNetworkInterfaceAddress.SetTo,
        do_ifaliasreq_none_ok_read k i.Name _ _ r hs hio]
  · intro r hio
    constructor
    · simp [BNetworkInterfaceAddress.SetTo,
        do_ifaliasreq_none_ok_read k i.Name _ _ r hs hio]
    · simp [BNetworkInterfaceAddress.SetTo,
        do_ifaliasreq_none_ok_read k i.Name _ _ r hs hio]

/-- C4 witness: on the all-success kernel, `SetTo(iTest, 3)` reads back
the kernel-written flags, address, mask and broadcast. -/
theorem claim_C4_address_set_to_query_witness :
    kOk.socketErr = none ∧
    (aTest.SetTo kOk iTest 3).2.1 =
      { fIndex := 3, fFlags := 7, fAddress := ⟨[10, 0, 0, 1]⟩,
        fMask := ⟨[255, 0, 0, 0]⟩, fBroadcast := ⟨[10, 255, 255, 255]⟩ } :=
  ⟨rfl, ((claim_C4_address_set_to_query kOk aTest iTest 3 rfl).2 _ rfl).2⟩

/-- C5: `CountAddresses()` returns the kernel-reported alias count when
the count-aliases ioctl succeeds, and `0` on any failure; consequently it
returns `0` exactly when the query failed or the kernel reported zero
aliases, so the two cases are indistinguishable. -/
theorem claim_C5_count_addresses_zero_on_failure (k : Kernel) (hk : k.Wf)
    (g : IfReq) (i : BNetworkInterface) :
    (∀ e, k.socketErr = some e → i.CountAddresses k g = 0) ∧
    (∀ e, k.socketErr = none →
      k.ioctlReq B_SOCKET_COUNT_ALIASES { g with ifr_name := strlcpy i.Name IF_NAMESIZE } = .error e →
      i.CountAddresses k g = 0) ∧
    (∀ r, k.socketErr = none →
      k.ioctlReq B_SOCKET_COUNT_ALIASES { g with ifr_name := strlcpy i.Name IF_NAMESIZE } = .ok r →
      i.CountAddresses k g = r.ifr_count) ∧
    (i.CountAddresses k g = 0 ↔
      ¬(k.socketErr = none ∧
        ∃ r, k.ioctlReq B_SOCKET_COUNT_ALIASES { g with ifr_name := strlcpy i.Name IF_NAMESIZE } = .ok r ∧
          r.ifr_count ≠ 0)) := by
  obtain ⟨hsock, hreq, -⟩ := hk
  refine ⟨?_, ?_, ?_, ?_⟩
  · intro e he
    have h0 := hsock e he
    simp [BNetworkInterface.CountAddresses, do_request_some k _ _ _ e he, B_OK, h0]
  · intro e hs h
    have h0 := hreq _ _ _ h
    simp [BNetworkInterface.CountAddresses,
      do_request_none_error k g i.Name _ e hs h, B_OK, h0]
  · intro r hs h
    simp [BNetworkInterface.CountAddresses,
      do_request_none_ok k g i.Name _ r hs h, B_OK]
  · cases hsck : k.socketErr with
    | some e =>
      have h0 := hsock e hsck
      simp [BNetworkInterface.CountAddresses, do_request_some k _ _ _ e hsck,
        B_OK, h0, hsck]
    | none =>
      cases hio : k.ioctlReq B_SOCKET_COUNT_ALIASES
          { g with ifr_name := strlcpy i.Name IF_NAMESIZE } with
      | error e =>
        have h0 := hreq _ _ _ hio
        simp [BNetworkInterface.CountAddresses,
          do_request_none_error k g i.Name _ e hsck hio, B_OK, h0, hio]
      | ok r =>
        simp [BNetworkInterface.CountAddresses,
          do_request_none_ok k g i.Name _ r hsck hio, B_OK, hio]

/-- C5 witness: on a kernel whose count-aliases ioctl fails with
`errno = -3`, `CountAddresses()` returns `0`. -/
theorem claim_C5_count_addresses_zero_on_failure_witness :
    iTest.CountAddresses kFail gTest = 0 :=
  (claim_C5_count_addresses_zero_on_failure kFail kFail_wf gTest iTest).2.1
    (-3) rfl rfl

/-- C6: `RemoveAddress` issues the same removal request and returns the
same result for any two records whose address fields hold the same
socket-address bytes, regardless of their mask, broadcast, flags and
index fields. -/
theorem claim_C6_remove_address_keyed_by_address_bytes (k : Kernel)
    (g : IfReq) (i : BNetworkInterface) (a₁ a₂ : BNetworkInterfaceAddress)
    (h : a₁.Address.bytes = a₂.Address.bytes) :
    i.RemoveAddress k g a₁ = i.RemoveAddress k g a₂ := by
  simp [BNetworkInterface.RemoveAddress, h]

/-- A record agreeing with `aTest` on the address bytes but differing in
index, flags, mask and broadcast. -/
def aTest2 : BNetworkInterfaceAddress :=
  ⟨5, 99, ⟨[192, 168, 0, 7]⟩, ⟨[0, 0, 0, 0]⟩, ⟨[1]⟩⟩

/-- C6 witness: two concrete records with the same address bytes produce
the same removal request and result. -/
theorem claim_C6_remove_address_keyed_by_address_bytes_witness :
    aTest.Address.bytes = aTest2.Address.bytes ∧
    iTest.RemoveAddress kOk gTest aTest = iTest.RemoveAddress kOk gTest aTest2 :=
  ⟨rfl, claim_C6_remove_address_keyed_by_address_bytes kOk gTest iTest
    aTest aTest2 rfl⟩

/-- `strlcpy` applied to a string freshly built from a character list. -/
theorem strlcpy_asString (l : List Char) (n : Nat) :
    strlcpy l.asString n = (l.take (n - 1)).asString := rfl

/-- C7: constructing an interface handle from a name (or `SetTo(name)`)
copies the name truncated to `IF_NAMESIZE` (terminator included), never
rejecting an over-long name (the operation is total and returns a
handle), and the resulting handle is identical to the one built from the
already-truncated name, so every subsequent operation uses the truncated
name. -/
theorem claim_C7_name_truncated_never_rejected (prev : BNetworkInterface)
    (name : String) :
    ((prev.ofName name).Name).toList = name.toList.take (IF_NAMESIZE - 1) ∧
    prev.SetToName name = prev.ofName name ∧
    prev.ofName name = prev.ofName ((name.toList.take (IF_NAMESIZE - 1)).asString) := by
  refine ⟨rfl, rfl, ?_⟩
  have h2 : (name.toList.take (IF_NAMESIZE - 1)).take (IF_NAMESIZE - 1) =
      name.toList.take (IF_NAMESIZE - 1) := by
    simp [List.take_take]
  show (⟨strlcpy name IF_NAMESIZE⟩ : BNetworkInterface) =
    ⟨strlcpy ((name.toList.take (IF_NAMESIZE - 1)).asString) IF_NAMESIZE⟩
  rw [strlcpy_asString, h2]
  rfl

/-- C8: `Exists()` is true exactly when the socket was created and the
`SIOCGIFINDEX` lookup of the handle's (truncated) name succeeded. -/
theorem claim_C8_exists_iff_lookup (k : Kernel) (hk : k.Wf) (g : IfReq)
    (i : BNetworkInterface) :
    (i.Exists k g = true ↔
      k.socketErr = none ∧
        ∃ r, k.ioctlReq SIOCGIFINDEX { g with ifr_name := strlcpy i.Name IF_NAMESIZE } = .ok r) := by
  obtain ⟨hsock, hreq, -⟩ := hk
  cases hsck : k.socketErr with
  | some e =>
    have h0 := hsock e hsck
    simp [BNetworkInterface.Exists, do_request_some k _ _ _ e hsck, B_OK, h0, hsck]
  | none =>
    cases hio : k.ioctlReq SIOCGIFINDEX
        { g with ifr_name := strlcpy i.Name IF_NAMESIZE } with
    | error e =>
      have h0 := hreq _ _ _ hio
      simp [BNetworkInterface.Exists,
        do_request_none_error k g i.Name _ e hsck hio, B_OK, h0, hio]
    | ok r =>
      simp [BNetworkInterface.Exists,
        do_request_none_ok k g i.Name _ r hsck hio, B_OK, hio]

/-- C8 witness: on the all-success kernel, `Exists()` is true. -/
theorem claim_C8_exists_iff_lookup_witness : iTest.Exists kOk gTest = true :=
  (claim_C8_exists_iff_lookup kOk kOk_wf gTest iTest).2 ⟨rfl, _, rfl⟩

/-- C9: if the index-to-name lookup in `SetTo(uint32 index)` fails, the
handle (so in particular its stored name) is left unchanged and the
kernel's error code is returned. -/
theorem claim_C9_set_to_index_failure_frame (k : Kernel) (hk : k.Wf)
    (g : IfReq) (i : BNetworkInterface) (index : Nat) :
    (∀ e, k.socketErr = some e → i.SetToIndex k g index = (e, i, [])) ∧
    (∀ e, k.socketErr = none →
      k.ioctlReq SIOCGIFNAME { g with ifr_index := index, ifr_name := strlcpy "" IF_NAMESIZE } = .error e →
      (i.SetToIndex k g index).1 = e ∧ (i.SetToIndex k g index).2.1 = i) := by
  obtain ⟨hsock, hreq, -⟩ := hk
  constructor
  · intro e he
    have h0 := hsock e he
    simp [BNetworkInterface.SetToIndex, do_request_some k _ _ _ e he, B_OK, h0]
  · intro e hs h
    have h0 := hreq _ _ _ h
    simp [BNetworkInterface.SetToIndex,
      do_request_none_error k { g with ifr_index := index } "" SIOCGIFNAME e hs h,
      B_OK, h0]

/-- C9 witness: on a kernel whose socket creation fails with
`errno = -2`, `SetTo(7)` returns `-2` and leaves the handle unchanged. -/
theorem claim_C9_set_to_index_failure_frame_witness :
    iTest.SetToIndex kNoSocket gTest 7 = (-2, iTest, []) :=
  (claim_C9_set_to_index_failure_frame kNoSocket kNoSocket_wf gTest iTest 7).1
    (-2) rfl

/-- C10: `BNetworkInterfaceAddress::SetTo(interface, index)` assigns the
given index to the record's index field unconditionally (the issued
request already carries it, and the result carries it on every path),
while on failure the flags, address, mask and broadcast fields are left
unchanged. -/
theorem claim_C10_set_to_assigns_index_frame (k : Kernel)
    (a : BNetworkInterfaceAddress) (i : BNetworkInterface) (index : Int) :
    ((a.SetTo k i index).2.1.fIndex = index) ∧
    ((buildAliasReq i.Name { a with fIndex := index }).ifra_index = index) ∧
    (∀ e, k.socketErr = some e →
      (a.SetTo k i index).2.1 = { a with fIndex := index }) ∧
    (∀ e, k.socketErr = none →
      k.ioctlAlias B_SOCKET_GET_ALIAS (buildAliasReq i.Name { a with fIndex := index }) = .error e →
      (a.SetTo k i index).2.1 = { a with fIndex := index }) := by
  refine ⟨?_, rfl, ?_, ?_⟩
  · cases hsck : k.socketErr with
    | some e =>
      simp [BNetworkInterfaceAddress.SetTo,
        do_ifaliasreq_some k i.Name B_SOCKET_GET_ALIAS
          { a with fIndex := index } true e hsck]
    | none =>
      cases hio : k.ioctlAlias B_SOCKET_GET_ALIAS
          (buildAliasReq i.Name { a with fIndex := index }) with
      | error e =>
        simp [BNetworkInterfaceAddress.SetTo,
          do_ifaliasreq_none_error k i.Name B_SOCKET_GET_ALIAS
            { a with fIndex := index } true e hsck hio]
      | ok r =>
        simp [BNetworkInterfaceAddress.SetTo,
          do_ifaliasreq_none_ok_read k i.Name B_SOCKET_GET_ALIAS
            { a with fIndex := index } r hsck hio]
  · intro e he
    simp [BNetworkInterfaceAddress.SetTo,
      do_ifaliasreq_some k i.Name B_SOCKET_GET_ALIAS
        { a with fIndex := index } true e he]
  · intro e hs hio
    simp [BNetworkInterfaceAddress.SetTo,
      do_ifaliasreq_none_error k i.Name B_SOCKET_GET_ALIAS
        { a with fIndex := index } true e hs hio]

/-- C10 witness: on a kernel whose socket creation fails, `SetTo(iTest,
42)` still stores index `42` and leaves the other fields unchanged. -/
theorem claim_C10_set_to_assigns_index_frame_witness :
    (aTest.SetTo kNoSocket iTest 42).2.1 = { aTest with fIndex := 42 } :=
  (claim_C10_set_to_assigns_index_frame kNoSocket aTest iTest 42).2.2.1
    (-2) rfl

end Netapi
